import Mathlib

set_option maxRecDepth 4000

/-!
Verification development for the PocketCM customer-record pipeline.

The definitions below are a shallow embedding of the repository's Python
sources:

* `src/src/models/schemas.py` — the `CustomerRecord` pydantic model with its
  field and model validators (the CanonicalRecord Validator of the spec);
* `src/src/services/extraction.py` — the extraction strategies (JSON ingest,
  dataframe mapping, regex text fallback, PDF/DOCX orchestration);
* `src/pocket-cm/src/services/api_client.py` — the retrying delivery client.

Python strings are modelled as Lean `String`/`List Char` (ASCII behaviour of
`strip`/`lower`/`split`/`title`), Python dicts with string keys as association
lists with unique keys, and fallible code as `Except`.  `datetime.strptime`
is embedded as a token matcher reproducing the regex fragments Python's
`_strptime` uses for the directives that occur in the source's format list.
-/

namespace PocketCM

/-- The `SubscriptionTier` enum of `schemas.py`. -/
inductive SubscriptionTier where
  | basic
  | pro
  | enterprise
deriving DecidableEq, Repr

/-- The string payload of a `SubscriptionTier` member (it is a `str` enum). -/
def SubscriptionTier.pyStr : SubscriptionTier → String
  | .basic => "Basic"
  | .pro => "Pro"
  | .enterprise => "Enterprise"

/-- A calendar date, the model of Python `datetime.date`. -/
structure Date where
  year : Nat
  month : Nat
  day : Nat
deriving DecidableEq, Repr

/-- Leap-year rule of Python `datetime`. -/
def isLeap (y : Nat) : Bool := y % 4 == 0 && (y % 100 != 0 || y % 400 == 0)

/-- Days in a month, as in Python `calendar`/`datetime`. -/
def daysInMonth (y m : Nat) : Nat :=
  if m = 2 then (if isLeap y then 29 else 28)
  else if m = 4 ∨ m = 6 ∨ m = 9 ∨ m = 11 then 30
  else 31

/-- Component validity enforced by the `datetime.date` constructor
(`MINYEAR = 1`, `MAXYEAR = 9999`). -/
def validDate (y m d : Nat) : Bool :=
  decide (1 ≤ y) && decide (y ≤ 9999) && decide (1 ≤ m) && decide (m ≤ 12) &&
    decide (1 ≤ d) && decide (d ≤ daysInMonth y m)

/-- Loosely-typed Python values that can appear in a raw input mapping.
`other` stands for any value that is neither a `str` (nor `str` subclass),
nor a `date`, e.g. `None` or a pandas `NaN`. -/
inductive Value where
  | str (s : String)
  | date (d : Date)
  | tier (t : SubscriptionTier)
  | other
deriving DecidableEq, Repr

/-- Python `str` instances among `Value`s: plain strings and the `str`-enum
`SubscriptionTier` members (whose `str` content is their payload). -/
def Value.asPyStr? : Value → Option String
  | .str s => some s
  | .tier t => some t.pyStr
  | _ => none

/-- A raw input mapping: a Python dict with string keys (keys unique). -/
abbrev RawRecord := List (String × Value)

/-! ### Python string helpers -/

/-- ASCII whitespace stripped by Python `str.strip()` and matched by `\s`. -/
def isPyWs (c : Char) : Bool :=
  c = ' ' || c = '\t' || c = '\n' || c = '\x0b' || c = '\x0c' || c = '\r'

/-- Python `str.strip()` on char lists. -/
def pyStripList (cs : List Char) : List Char :=
  ((cs.dropWhile isPyWs).reverse.dropWhile isPyWs).reverse

/-- Python `str.strip()`. -/
def pyStrip (s : String) : String := ⟨pyStripList s.data⟩

/-- Python `str.lower()` (ASCII model). -/
def pyLower (s : String) : String := ⟨s.data.map Char.toLower⟩

/-- Python `str.split()` with no separator: split on whitespace runs,
dropping empty pieces.  Structural fuel recursion (one unit of fuel per
consumed character; the input length is enough fuel). -/
def pySplitListAux : Nat → List Char → List (List Char)
  | _, [] => []
  | 0, _ => []
  | fuel + 1, c :: rest =>
    if isPyWs c then pySplitListAux fuel rest
    else (c :: rest.takeWhile (fun x => !isPyWs x)) ::
      pySplitListAux fuel (rest.dropWhile (fun x => !isPyWs x))

/-- Python `str.split()` on char lists. -/
def pySplitList (cs : List Char) : List (List Char) := pySplitListAux cs.length cs

/-- Python `str.split()` on strings. -/
def pySplit (s : String) : List String := (pySplitList s.data).map (⟨·⟩)

/-- The Python repr of a list of strings, as interpolated by an f-string. -/
def pyListRepr (xs : List String) : String :=
  "[" ++ String.intercalate ", " (xs.map (fun s => "\x27" ++ s ++ "\x27")) ++ "]"

/-! ### Field validators of `CustomerRecord` (schemas.py) -/

/-- `validate_name` (after-validator on `customer_name`): reject empty or
whitespace-only, else collapse whitespace runs: `' '.join(v.strip().split())`. -/
def validate_name (v : String) : Except String String :=
  if v.isEmpty || (pyStrip v).isEmpty then .error "Customer name cannot be empty"
  else .ok (String.intercalate " " (pySplit (pyStrip v)))

/-- Character class `[a-zA-Z0-9._%+-]` (local part of the email pattern). -/
def isLocalChar (c : Char) : Bool :=
  c.isAlphanum || c = '.' || c = '_' || c = '%' || c = '+' || c = '-'

/-- Character class `[a-zA-Z0-9.-]` (domain part of the email pattern). -/
def isDomainChar (c : Char) : Bool := c.isAlphanum || c = '.' || c = '-'

/-- Decides `[a-zA-Z0-9.-]+\.[a-zA-Z]{2,}` anchored to the whole list:
some split point has a dot, a nonempty domain run before it and an
all-alphabetic tail of length at least 2 after it. -/
def emailDomainOk (t : List Char) : Bool :=
  (List.range t.length).any fun k =>
    decide (1 ≤ k) && (t.take k).all isDomainChar &&
      (match t.drop k with
       | '.' :: rest => rest.all Char.isAlpha && decide (2 ≤ rest.length)
       | _ => false)

/-- Decides the anchored pattern `^[a-zA-Z0-9._%+-]+@[a-zA-Z0-9.-]+\.[a-zA-Z]{2,}$`
(the email regex of `validate_email`). -/
def emailRegexOk (s : String) : Bool :=
  let cs := s.data
  (List.range cs.length).any fun i =>
    decide (1 ≤ i) && (cs.take i).all isLocalChar &&
      (match cs.drop i with
       | '@' :: rest => emailDomainOk rest
       | _ => false)

/-- `validate_email` (after-validator on `email`): match the pattern against
`v.strip().lower()` and return the normalized email, else the source's error
message carrying the raw value. -/
def validate_email (v : String) : Except String String :=
  let norm := pyLower (pyStrip v)
  if emailRegexOk norm then .ok norm
  else .error ("Invalid email format: " ++ v)

/-- The synonym table of `normalize_subscription_tier`. -/
def tierMapping : List (String × SubscriptionTier) :=
  [("professional", .pro), ("prem", .pro), ("premium", .pro), ("pro", .pro),
   ("basic", .basic),
   ("enterprise", .enterprise), ("corp", .enterprise), ("corporate", .enterprise)]

/-- `normalize_subscription_tier` (before-validator on `subscription_tier`):
pass an enum value through; look a string up in the synonym table after
strip+lower, defaulting to Basic; default anything else to Basic.  Total. -/
def normalize_subscription_tier (v : Value) : SubscriptionTier :=
  match v with
  | .tier t => t
  | .str s =>
      match tierMapping.lookup (pyLower (pyStrip s)) with
      | some t => t
      | none => .basic
  | _ => .basic

/-! ### `parse_signup_date`: embedded `datetime.strptime` -/

/-- Format directives occurring in the source's format list, plus literal
characters; whitespace in a format compiles to `\s+`. -/
inductive FTok where
  | y4
  | y2
  | mon2
  | day2
  | monFull
  | monAbbr
  | lit (c : Char)
  | ws
deriving DecidableEq, Repr

def monthNamesFull : List (String × Nat) :=
  [("january", 1), ("february", 2), ("march", 3), ("april", 4), ("may", 5),
   ("june", 6), ("july", 7), ("august", 8), ("september", 9), ("october", 10),
   ("november", 11), ("december", 12)]

def monthNamesAbbr : List (String × Nat) :=
  [("jan", 1), ("feb", 2), ("mar", 3), ("apr", 4), ("may", 5), ("jun", 6),
   ("jul", 7), ("aug", 8), ("sep", 9), ("oct", 10), ("nov", 11), ("dec", 12)]

/-- Case-insensitive month-name match at the head of the input (no month name
is a prefix of another, so at most one name applies). -/
def matchMonth (names : List (String × Nat)) (cs : List Char) :
    Option (Nat × List Char) :=
  names.findSome? fun nm =>
    if nm.1.data.isPrefixOf (cs.map Char.toLower) then
      some (nm.2, cs.drop nm.1.length)
    else none

/-- Fields captured so far while matching one format. -/
structure PartialDate where
  y : Option Nat := none
  mo : Option Nat := none
  d : Option Nat := none
deriving DecidableEq, Repr

/-- Numeric value of a digit character. -/
def dval (c : Char) : Nat := c.toNat - 48

/-- Match one format (token list) against the whole input, reproducing the
regex fragments of Python `_strptime` including their alternation order:
`%Y` is exactly four digits, `%y` exactly two (mapped to 2000+yy for yy ≤ 68,
else 1900+yy), `%m` is `1[0-2]|0[1-9]|[1-9]`, `%d` is
`3[01]|[12]\d|0[1-9]|[1-9]`, `%B`/`%b` are case-insensitive month names, and
whitespace is `\s+` (greedy; no later token can match whitespace).  The whole
input must be consumed (`unconverted data remains` otherwise). -/
def matchFmt : List FTok → List Char → PartialDate → Option PartialDate
  | [], cs, pd => if cs.isEmpty then some pd else none
  | .lit c :: ts, cs, pd =>
      match cs with
      | c2 :: rest => if c2 = c then matchFmt ts rest pd else none
      | [] => none
  | .ws :: ts, cs, pd =>
      match cs with
      | c :: rest => if isPyWs c then matchFmt ts (rest.dropWhile isPyWs) pd else none
      | [] => none
  | .y4 :: ts, cs, pd =>
      match cs with
      | a :: b :: c :: d :: rest =>
          if a.isDigit && b.isDigit && c.isDigit && d.isDigit then
            matchFmt ts rest
              { pd with y := some (1000 * dval a + 100 * dval b + 10 * dval c + dval d) }
          else none
      | _ => none
  | .y2 :: ts, cs, pd =>
      match cs with
      | a :: b :: rest =>
          if a.isDigit && b.isDigit then
            let yy := 10 * dval a + dval b
            matchFmt ts rest { pd with y := some (if yy ≤ 68 then 2000 + yy else 1900 + yy) }
          else none
      | _ => none
  | .mon2 :: ts, cs, pd =>
      (match cs with
       | '1' :: b :: rest =>
           if '0' ≤ b ∧ b ≤ '2' then
             matchFmt ts rest { pd with mo := some (10 + dval b) }
           else none
       | _ => none) <|>
      (match cs with
       | '0' :: b :: rest =>
           if '1' ≤ b ∧ b ≤ '9' then
             matchFmt ts rest { pd with mo := some (dval b) }
           else none
       | _ => none) <|>
      (match cs with
       | a :: rest =>
           if '1' ≤ a ∧ a ≤ '9' then
             matchFmt ts rest { pd with mo := some (dval a) }
           else none
       | _ => none)
  | .day2 :: ts, cs, pd =>
      (match cs with
       | '3' :: b :: rest =>
           if b = '0' ∨ b = '1' then
             matchFmt ts rest { pd with d := some (30 + dval b) }
           else none
       | _ => none) <|>
      (match cs with
       | a :: b :: rest =>
           if (a = '1' ∨ a = '2') ∧ b.isDigit then
             matchFmt ts rest { pd with d := some (10 * dval a + dval b) }
           else none
       | _ => none) <|>
      (match cs with
       | '0' :: b :: rest =>
           if '1' ≤ b ∧ b ≤ '9' then
             matchFmt ts rest { pd with d := some (dval b) }
           else none
       | _ => none) <|>
      (match cs with
       | a :: rest =>
           if '1' ≤ a ∧ a ≤ '9' then
             matchFmt ts rest { pd with d := some (dval a) }
           else none
       | _ => none)
  | .monFull :: ts, cs, pd =>
      match matchMonth monthNamesFull cs with
      | some mr => matchFmt ts mr.2 { pd with mo := some mr.1 }
      | none => none
  | .monAbbr :: ts, cs, pd =>
      match matchMonth monthNamesAbbr cs with
      | some mr => matchFmt ts mr.2 { pd with mo := some mr.1 }
      | none => none

/-- The source's `date_formats` list, in order:
`%Y-%m-%d`, `%m/%d/%Y`, `%d/%m/%Y`, `%B %d, %Y`, `%b %d, %Y`, `%d %b %Y`,
`%d %b %y`, `%b %d %y`, `%Y/%m/%d`, `%d-%m-%Y`, `%m-%d-%Y`, `%Y.%m.%d`,
`%d.%m.%Y`. -/
def date_formats : List (List FTok) :=
  [ [.y4, .lit '-', .mon2, .lit '-', .day2],
    [.mon2, .lit '/', .day2, .lit '/', .y4],
    [.day2, .lit '/', .mon2, .lit '/', .y4],
    [.monFull, .ws, .day2, .lit ',', .ws, .y4],
    [.monAbbr, .ws, .day2, .lit ',', .ws, .y4],
    [.day2, .ws, .monAbbr, .ws, .y4],
    [.day2, .ws, .monAbbr, .ws, .y2],
    [.monAbbr, .ws, .day2, .ws, .y2],
    [.y4, .lit '/', .mon2, .lit '/', .day2],
    [.day2, .lit '-', .mon2, .lit '-', .y4],
    [.mon2, .lit '-', .day2, .lit '-', .y4],
    [.y4, .lit '.', .mon2, .lit '.', .day2],
    [.day2, .lit '.', .mon2, .lit '.', .y4] ]

/-- `datetime.strptime(v, fmt).date()` for one format: match, then the
`datetime` constructor checks the components (Feb 30 etc. raise and the
caller moves on to the next format). -/
def tryFormat (fmt : List FTok) (cs : List Char) : Option Date :=
  match matchFmt fmt cs {} with
  | some pd =>
      match pd.y, pd.mo, pd.d with
      | some y, some mo, some d => if validDate y mo d then some ⟨y, mo, d⟩ else none
      | _, _, _ => none
  | none => none

/-- First format in the list that parses the input (the source's
`for fmt in date_formats: try ... except: continue`). -/
def tryFormats (cs : List Char) : Option Date :=
  date_formats.findSome? (fun f => tryFormat f cs)

/-- The tail consumed by the ordinal-suffix regex `(\d+)(st|nd|rd|th)` right
after a digit run. -/
def ordTail : List Char → Option (List Char)
  | 's' :: 't' :: r => some r
  | 'n' :: 'd' :: r => some r
  | 'r' :: 'd' :: r => some r
  | 't' :: 'h' :: r => some r
  | _ => none

/-- `re.sub(r'(\d+)(st|nd|rd|th)', r'\1', v)`: leftmost non-overlapping
matches; a greedy digit run followed by an ordinal suffix keeps the digits
and drops the suffix.  Structural fuel recursion (one unit of fuel per
consumed character; the input length is enough fuel). -/
def stripOrdinalsAux : Nat → List Char → List Char
  | _, [] => []
  | 0, cs => cs
  | fuel + 1, c :: rest =>
    if c.isDigit then
      (c :: rest.takeWhile Char.isDigit) ++
        (match ordTail (rest.dropWhile Char.isDigit) with
         | some r => stripOrdinalsAux fuel r
         | none => stripOrdinalsAux fuel (rest.dropWhile Char.isDigit))
    else c :: stripOrdinalsAux fuel rest

/-- The ordinal-suffix substitution on a whole char list. -/
def stripOrdinals (cs : List Char) : List Char := stripOrdinalsAux cs.length cs

/-- The string branch of `parse_signup_date`: strip, try every format in
order, on total failure strip ordinal suffixes and try once more, and
otherwise raise with the (stripped) value in the message. -/
def parseDateStr (s : String) : Except String Date :=
  let t := pyStrip s
  match tryFormats t.data with
  | some d => .ok d
  | none =>
      match tryFormats (stripOrdinals t.data) with
      | some d => .ok d
      | none => .error ("Unable to parse date: " ++ t)

/-- `parse_signup_date` (before-validator on `signup_date`).  A
`SubscriptionTier` member is a `str` instance, so it takes the string branch
with its payload; any other non-string, non-date value raises. -/
def parse_signup_date (v : Value) : Except String Date :=
  match v with
  | .date d => .ok d
  | .str s => parseDateStr s
  | .tier t => parseDateStr t.pyStr
  | .other => .error ("Unable to parse date: " ++ "None")

/-! ### Model validator and record construction -/

/-- The canonical record produced by a successful validation. -/
structure CustomerRecord where
  customer_name : String
  email : String
  subscription_tier : SubscriptionTier
  signup_date : Date
deriving DecidableEq, Repr

/-- The `required_fields` list of `validate_model`. -/
def requiredFields : List String :=
  ["customer_name", "email", "subscription_tier", "signup_date"]

/-- The required keys absent from the mapping (exact, case-sensitive
membership, as Python `field not in data`). -/
def missingFields (data : RawRecord) : List String :=
  requiredFields.filter (fun f => !(data.map Prod.fst).contains f)

/-- `validate_model` (before-model-validator): raise when any required key is
absent, listing every absent one in the Python list repr. -/
def validate_model (data : RawRecord) : Except String Unit :=
  if (missingFields data).isEmpty then .ok ()
  else .error ("Missing required fields: " ++ pyListRepr (missingFields data))

/-- Pydantic pipeline for `customer_name`: a `str` value whose raw length is
within the `Field` bounds 1..255, then `validate_name`. -/
def validateNameField (v : Value) : Except String String :=
  match v.asPyStr? with
  | some s =>
      if s.length < 1 then .error "String should have at least 1 character"
      else if 255 < s.length then .error "String should have at most 255 characters"
      else validate_name s
  | none => .error "Input should be a valid string"

/-- Pydantic pipeline for `email`: a `str` value, then `validate_email`. -/
def validateEmailField (v : Value) : Except String String :=
  match v.asPyStr? with
  | some s => validate_email s
  | none => .error "Input should be a valid string"

/-- The error of a field result, if any. -/
def errList {α : Type} : Except String α → List String
  | .ok _ => []
  | .error e => [e]

/-- Combine the four field results: a record when all validate, else the
collected errors in field-declaration order. -/
def combineFields (nr er : Except String String) (tr : Except String SubscriptionTier)
    (dr : Except String Date) : Except (List String) CustomerRecord :=
  match nr, er, tr, dr with
  | .ok n, .ok e, .ok t, .ok d => .ok ⟨n, e, t, d⟩
  | n, e, t, d => .error (errList n ++ errList e ++ errList t ++ errList d)

/-- Pydantic construction of `CustomerRecord` from a raw mapping: the
before-model-validator runs first (raising alone), then every field is
validated in declaration order with errors collected. -/
def CustomerRecord.mk? (data : RawRecord) : Except (List String) CustomerRecord :=
  match validate_model data with
  | .error e => .error [e]
  | .ok _ =>
    combineFields
      (match data.lookup "customer_name" with
       | some v => validateNameField v
       | none => .error "Field required")
      (match data.lookup "email" with
       | some v => validateEmailField v
       | none => .error "Field required")
      (match data.lookup "subscription_tier" with
       | some v => .ok (normalize_subscription_tier v)
       | none => .error "Field required")
      (match data.lookup "signup_date" with
       | some v => parse_signup_date v
       | none => .error "Field required")

/-! ### Delivery client (`api_client.py`) -/

/-- Outcome of one HTTP POST as observed inside `_send_single_record` /
`_send_batch`: a status code with response body text, or a raised exception
(timeout, transport error) whose message the handler stringifies. -/
inductive HttpResult where
  | status (code : Nat) (body : String)
  | exn (msg : String)
deriving DecidableEq, Repr

/-- `_send_single_record`: 200/201/202 succeed; any other status yields
`(False, "HTTP <code>: <body>")`; an exception yields its message. -/
def sendSingleRecord (r : HttpResult) : Bool × Option String :=
  match r with
  | .status code body =>
      if code = 200 ∨ code = 201 ∨ code = 202 then (true, none)
      else (false, some ("HTTP " ++ toString code ++ ": " ++ body))
  | .exn msg => (false, some msg)

/-- `_send_batch`: identical status rule applied to the aggregate POST. -/
def sendBatch (r : HttpResult) : Bool × Option String :=
  match r with
  | .status code body =>
      if code = 200 ∨ code = 201 ∨ code = 202 then (true, none)
      else (false, some ("HTTP " ++ toString code ++ ": " ++ body))
  | .exn msg => (false, some msg)

/-- The responses the destination gives during one send cycle: the response
to the i-th individual POST of the cycle and the response to the aggregate
POST. -/
structure CycleResponses where
  individual : Nat → HttpResult
  aggregate : HttpResult

/-- The individual-send loop of `_send_data`: POST each record in sequence
starting at index `idx`, stopping at the first failure; returns whether all
succeeded together with the number of individual POSTs actually made. -/
def sendLoop (dest : Nat → HttpResult) (idx : Nat) : List String → Bool × Nat
  | [] => (true, 0)
  | _ :: rest =>
      match sendSingleRecord (dest idx) with
      | (true, _) =>
          let r := sendLoop dest (idx + 1) rest
          (r.1, r.2 + 1)
      | (false, _) => (false, 1)

/-- What one send cycle did: its result pair and the number of individual
and aggregate POSTs it made. -/
structure CycleTrace where
  success : Bool
  error : Option String
  individualPosts : Nat
  aggregatePosts : Nat
deriving DecidableEq, Repr

/-- One send cycle (`_send_data`): a single-record batch POSTs its
individual payload and returns success on 200/201/202 — on failure control
falls through to the aggregate POST; a multi-record batch POSTs individual
payloads in sequence and falls through to the aggregate POST as soon as one
fails; whenever the aggregate POST runs, its result is the cycle's result.
The cycle never raises: the whole body is inside try/except arms that
return `(False, reason)`. -/
def sendData (json_data : List String) (resp : CycleResponses) : CycleTrace :=
  if json_data.length = 1 then
    match sendSingleRecord (resp.individual 0) with
    | (true, _) => ⟨true, none, 1, 0⟩
    | (false, _) =>
        let b := sendBatch resp.aggregate
        ⟨b.1, b.2, 1, 1⟩
  else
    match sendLoop resp.individual 0 json_data with
    | (true, n) => ⟨true, none, n, 0⟩
    | (false, n) =>
        let b := sendBatch resp.aggregate
        ⟨b.1, b.2, n, 1⟩

/-- Result of one attempt as seen by `_send_with_retry`: `_send_data`
returning its pair, or an exception raised out of the attempt body — the
only place `last_error` is assigned. -/
inductive AttemptOutcome where
  | ret (success : Bool) (error : Option String)
  | raised (msg : String)

/-- An attempt that did not short-circuit the retry loop. -/
def AttemptOutcome.failed : AttemptOutcome → Bool
  | .ret true _ => false
  | .ret false _ => true
  | .raised _ => true

/-- Python str() of an optional string as an f-string interpolates it:
`None` prints as "None". -/
def pyOptionStr : Option String → String
  | none => "None"
  | some s => s

/-- Trace of `_send_with_retry`: the outcome, the backoff sleeps performed
in order, and the number of attempts made. -/
structure RetryTrace where
  success : Bool
  error : Option String
  sleeps : List ℚ
  attemptsMade : Nat
deriving DecidableEq, Repr

/-- The attempt loop of `_send_with_retry`.  `attempt` is the 0-based index,
`rem` the attempts still allowed (`max_retries + 1` at the top), `lastError`
the accumulator written only when an attempt raises, `sleeps` those already
performed.  Before every attempt after the first, sleep
`retry_delay * 2 ^ (attempt - 1)`.  A returned failure does NOT update
`lastError` (the returned reason is discarded); after the last attempt the
loop reports failure with `last_error` interpolated into the message. -/
def retryLoop (attempts : Nat → AttemptOutcome) (retryDelay : ℚ) (maxRetries : Nat) :
    Nat → Nat → Option String → List ℚ → RetryTrace
  | attempt, 0, lastError, sleeps =>
      ⟨false,
        some ("Failed to sync data after " ++ toString (maxRetries + 1) ++
          " attempts. Last error: " ++ pyOptionStr lastError),
        sleeps, attempt⟩
  | attempt, rem + 1, lastError, sleeps =>
      let sleeps2 := if 0 < attempt then sleeps ++ [retryDelay * 2 ^ (attempt - 1)] else sleeps
      match attempts attempt with
      | .ret true _ => ⟨true, none, sleeps2, attempt + 1⟩
      | .ret false _ =>
          retryLoop attempts retryDelay maxRetries (attempt + 1) rem lastError sleeps2
      | .raised msg =>
          retryLoop attempts retryDelay maxRetries (attempt + 1) rem (some msg) sleeps2

/-- `_send_with_retry`. -/
def sendWithRetry (attempts : Nat → AttemptOutcome) (retryDelay : ℚ)
    (maxRetries : Nat) : RetryTrace :=
  retryLoop attempts retryDelay maxRetries 0 (maxRetries + 1) none []

/-- `sync_customer_data` composed with `_send_data` as the attempt body (an
attempt never raises, since the whole body of `_send_data` sits inside its
own try/except): an empty batch returns success with no attempt, otherwise
the retry loop runs against the per-attempt cycle responses. -/
def syncCustomerData (json_data : List String) (dest : Nat → CycleResponses)
    (retryDelay : ℚ) (maxRetries : Nat) : RetryTrace :=
  if json_data.isEmpty then ⟨true, none, [], 0⟩
  else
    sendWithRetry
      (fun k =>
        let t := sendData json_data (dest k)
        .ret t.success t.error)
      retryDelay maxRetries

/-- The backoff sleeps the loop performs for `rem` failing attempts starting
at index `k`. -/
def backoffSleeps (d : ℚ) : Nat → Nat → List ℚ
  | _, 0 => []
  | k, rem + 1 =>
      (if 0 < k then [d * 2 ^ (k - 1)] else []) ++ backoffSleeps d (k + 1) rem

/-- The value `last_error` holds after the loop has processed `rem` attempts
starting at index `k` with current value `le`: only raising attempts update
it. -/
def lastErrAfter (attempts : Nat → AttemptOutcome) : Nat → Nat → Option String → Option String
  | _, 0, le => le
  | k, rem + 1, le =>
      lastErrAfter attempts (k + 1) rem
        (match attempts k with
         | .raised msg => some msg
         | _ => le)

/-- Substring containment on char lists (Python `pat in line`). -/
def listContainsSub (l pat : List Char) : Bool :=
  (List.range (l.length + 1)).any (fun i => pat.isPrefixOf (l.drop i))

/-! ### Extraction service (`extraction.py`) -/

/-- `Except` success as a Bool. -/
def exceptOk {ε α : Type} : Except ε α → Bool
  | .ok _ => true
  | .error _ => false

/-- `Except` to `Option`, dropping the error. -/
def exceptToOption {ε α : Type} : Except ε α → Option α
  | .ok a => some a
  | .error _ => none

/-- A decoded JSON document: sequences, objects (string keys, unique), and
scalar leaves. -/
inductive JsonDoc where
  | list (xs : List JsonDoc)
  | dict (fields : List (String × JsonDoc))
  | scalar (v : Value)

/-- A JSON node used as a field value of a raw mapping: sequences and
objects are non-string, non-date values as far as the validators are
concerned. -/
def JsonDoc.asValue : JsonDoc → Value
  | .scalar v => v
  | _ => .other

/-- `CustomerRecord(**record)` requires a mapping; anything else raises a
TypeError that propagates out of `_extract_from_json` (whose except clause
only catches JSON-decode errors). -/
def JsonDoc.asRecord : JsonDoc → Except String RawRecord
  | .dict fs => .ok (fs.map (fun kv => (kv.1, kv.2.asValue)))
  | _ => .error "TypeError: argument after ** must be a mapping"

/-- Python iteration over the object bound to `customers`/`data`: a list
yields its elements, a dict its keys, a string its characters; other
scalars are not iterable (the TypeError propagates). -/
def JsonDoc.iterElems : JsonDoc → Except String (List JsonDoc)
  | .list xs => .ok xs
  | .dict fs => .ok (fs.map (fun kv => JsonDoc.scalar (.str kv.1)))
  | .scalar v =>
      match v.asPyStr? with
      | some s => .ok (s.data.map (fun c => JsonDoc.scalar (.str ⟨[c]⟩)))
      | none => .error "TypeError: object is not iterable"

/-- `CustomerRecord(**record)` for one sequence element; a pydantic
rejection raises with the collected field errors. -/
def elementRecord (x : JsonDoc) : Except String CustomerRecord :=
  match x.asRecord with
  | .error e => .error e
  | .ok raw =>
      match CustomerRecord.mk? raw with
      | .ok c => .ok c
      | .error errs => .error (String.intercalate "; " errs)

/-- The list comprehension of `_extract_from_json`: elements validate in
order and the first failure aborts the whole call (strict — no per-record
skipping). -/
def buildAll : List JsonDoc → Except String (List CustomerRecord)
  | [] => .ok []
  | x :: xs =>
      match elementRecord x with
      | .error e => .error e
      | .ok c =>
          match buildAll xs with
          | .error e => .error e
          | .ok cs => .ok (c :: cs)

/-- `_extract_from_json` after a successful JSON decode: accept a top-level
sequence, an object with a `customers` (else `data`) key holding the
sequence, or a single bare object; a bare scalar raises
"Invalid JSON structure". -/
def extractFromJson (doc : JsonDoc) : Except String (List CustomerRecord) :=
  match doc with
  | .list xs => buildAll xs
  | .dict fs =>
      match fs.lookup "customers" with
      | some v =>
          match v.iterElems with
          | .error e => .error e
          | .ok xs => buildAll xs
      | none =>
          match fs.lookup "data" with
          | some v =>
              match v.iterElems with
              | .error e => .error e
              | .ok xs => buildAll xs
          | none => buildAll [JsonDoc.dict fs]
  | .scalar _ => .error "Invalid JSON structure"

/-- A decoded table: headers and rows of cell values aligned with them. -/
structure DataFrame where
  headers : List String
  rows : List (List Value)

/-- The `column_mapping` synonym table of `_dataframe_to_records`. -/
def column_mapping : List (String × List String) :=
  [("customer_name", ["name", "customer", "client_name", "customer_name", "fullname"]),
   ("email", ["email", "email_address", "mail", "contact_email"]),
   ("subscription_tier", ["tier", "subscription", "plan", "subscription_tier", "level"]),
   ("signup_date", ["date", "signup_date", "join_date", "created", "registration_date"])]

/-- The synonym list of one logical field. -/
def synonymsFor (field : String) : List String :=
  match column_mapping.lookup field with
  | some l => l
  | none => []

/-- Resolve a logical field to the first table header whose lower-casing
matches any synonym (case-insensitive). -/
def resolveColumn (headers : List String) (syns : List String) : Option String :=
  headers.find? (fun col => syns.any (fun n => pyLower col == pyLower n))

/-- The cell of a row under a named header (the header is always present for
resolved columns). -/
def cellAt (headers : List String) (row : List Value) (col : String) : Value :=
  match (headers.zip row).lookup col with
  | some v => v
  | none => .other

/-- The raw mapping `_dataframe_to_records` passes to the Validator for one
row: resolved columns provide the row's values; an unresolved tier defaults
to "Basic" and an unresolved date to today's `YYYY-MM-DD` string; an
unresolved name or email contributes no key (ruled out by the pre-flight
check). -/
def rowRawRecord (headers : List String) (todayStr : String)
    (nameCol emailCol tierCol dateCol : Option String) (row : List Value) : RawRecord :=
  (match nameCol with
   | some c => [("customer_name", cellAt headers row c)]
   | none => []) ++
  (match emailCol with
   | some c => [("email", cellAt headers row c)]
   | none => []) ++
  (match tierCol with
   | some c => [("subscription_tier", cellAt headers row c)]
   | none => [("subscription_tier", Value.str "Basic")]) ++
  (match dateCol with
   | some c => [("signup_date", cellAt headers row c)]
   | none => [("signup_date", Value.str todayStr)])

/-- `_dataframe_to_records`: resolve columns, pre-flight check that name and
email resolved (table-level failure otherwise), then validate row by row,
skipping each failing row and continuing (permissive). -/
def dataframeToRecords (df : DataFrame) (todayStr : String) :
    Except String (List CustomerRecord) :=
  let nameCol := resolveColumn df.headers (synonymsFor "customer_name")
  let emailCol := resolveColumn df.headers (synonymsFor "email")
  let tierCol := resolveColumn df.headers (synonymsFor "subscription_tier")
  let dateCol := resolveColumn df.headers (synonymsFor "signup_date")
  if nameCol.isNone ∨ emailCol.isNone then
    .error "CSV must contain customer name and email columns"
  else
    .ok (df.rows.filterMap (fun row =>
      exceptToOption (CustomerRecord.mk?
        (rowRawRecord df.headers todayStr nameCol emailCol tierCol dateCol row))))

/-! ### Text fallback extractor (`_extract_from_text_with_regex`) -/

/-- Greedy match of the unanchored email pattern
`[a-zA-Z0-9._%+-]+@[a-zA-Z0-9.-]+\.[a-zA-Z]{2,}` at the head of `cs`: the
maximal local-part run must be followed by `@`; within the maximal
domain-char run after `@`, regex backtracking picks the LAST dot followed by
at least two alphabetic characters, and the greedy alphabetic run after that
dot ends the match.  Returns the matched email and the number of characters
consumed. -/
def tryEmailAt (cs : List Char) : Option (List Char × Nat) :=
  let loc := cs.takeWhile isLocalChar
  if loc.isEmpty then none
  else
    match cs.drop loc.length with
    | '@' :: r2 =>
        let dom := r2.takeWhile isDomainChar
        match (List.range dom.length).reverse.findSome? (fun k =>
          if 1 ≤ k then
            match dom.drop k with
            | '.' :: t1 :: t2 :: _ =>
                if t1.isAlpha && t2.isAlpha then
                  some (dom.take k, (dom.drop (k + 1)).takeWhile Char.isAlpha)
                else none
            | _ => none
          else none) with
        | some dt =>
            some (loc ++ '@' :: dt.1 ++ '.' :: dt.2,
              loc.length + 1 + dt.1.length + 1 + dt.2.length)
        | none => none
    | _ => none

/-- `re.findall` of the email pattern: scan left to right, matching at each
position and resuming right after each match — non-overlapping matches in
first-occurrence order, duplicates kept.  Structural fuel recursion (a match
consumes at least one character). -/
def findEmailsAux : Nat → List Char → List String
  | _, [] => []
  | 0, _ => []
  | fuel + 1, c :: rest =>
      match tryEmailAt (c :: rest) with
      | some me => (⟨me.1⟩ : String) :: findEmailsAux fuel ((c :: rest).drop me.2)
      | none => findEmailsAux fuel rest

/-- All email matches of a text. -/
def findEmails (cs : List Char) : List String := findEmailsAux cs.length cs

/-- Python `str.title()` (ASCII model): the first letter of every run of
letters is uppercased, subsequent letters lowercased. -/
def pyTitleAux : Bool → List Char → List Char
  | _, [] => []
  | prevCased, c :: rest =>
      if c.isAlpha then
        (if prevCased then c.toLower else c.toUpper) :: pyTitleAux true rest
      else c :: pyTitleAux false rest

/-- Python `str.title()`. -/
def pyTitle (s : String) : String := ⟨pyTitleAux false s.data⟩

/-- Python `text.split('\n')` (keeping empty pieces). -/
def splitNl : List Char → List (List Char)
  | [] => [[]]
  | c :: rest =>
      let r := splitNl rest
      if c = '\n' then [] :: r
      else
        match r with
        | [] => [[c]]
        | h :: t => (c :: h) :: t

/-- Index of the first occurrence of `pat` in `l`, if contained. -/
def indexOfSub (l pat : List Char) : Option Nat :=
  (List.range (l.length + 1)).find? (fun i => pat.isPrefixOf (l.drop i))

/-- The candidate-name heuristic: find the first line containing the email;
take what precedes the email's first occurrence in that line
(`line.split(email)[0]`), strip it; if non-empty with at most 3 words,
title-case it, else keep the placeholder "Unknown". -/
def nameForEmail (text email : List Char) : String :=
  match (splitNl text).find? (fun line => listContainsSub line email) with
  | none => "Unknown"
  | some line =>
      match indexOfSub line email with
      | none => "Unknown"
      | some i =>
          let wb := pyStripList (line.take i)
          if wb ≠ [] ∧ (pySplitList wb).length ≤ 3 then pyTitle ⟨wb⟩
          else "Unknown"

/-- The raw mapping built for one matched email: heuristic name, the email,
tier defaulted to "Basic", date defaulted to today's `YYYY-MM-DD` string. -/
def candidateRaw (text : List Char) (todayStr : String) (email : String) : RawRecord :=
  [("customer_name", .str (nameForEmail text email.data)),
   ("email", .str email),
   ("subscription_tier", .str "Basic"),
   ("signup_date", .str todayStr)]

/-- The per-email loop of `_extract_from_text_with_regex`: validate each
candidate and append it, or log and skip it. -/
def buildCandidates (text : List Char) (todayStr : String) : List String → List CustomerRecord
  | [] => []
  | e :: es =>
      match CustomerRecord.mk? (candidateRaw text todayStr e) with
      | .ok c => c :: buildCandidates text todayStr es
      | .error _ => buildCandidates text todayStr es

/-- `_extract_from_text_with_regex`: find all emails, build one candidate
per email, skip candidates failing validation.  Total — no exception
escapes. -/
def extractFromTextWithRegex (text : String) (todayStr : String) : List CustomerRecord :=
  buildCandidates text.data todayStr (findEmails text.data)

/-! ### Unstructured orchestration (`_extract_from_pdf` / `_extract_from_docx`) -/

/-- Result of the optional AI extraction capability on a given text: not
configured, a successful candidate list, or a failure. -/
inductive AIResult where
  | absent
  | ok (records : List CustomerRecord)
  | fail (msg : String)

/-- `_extract_with_ai`: with no client or on any AI failure, fall back to
the regex extractor; on success return the AI's records.  Never raises. -/
def extractWithAI (ai : AIResult) (text : String) (todayStr : String) : List CustomerRecord :=
  match ai with
  | .absent => extractFromTextWithRegex text todayStr
  | .ok rs => rs
  | .fail _ => extractFromTextWithRegex text todayStr

/-- The text accumulated from PDF pages: each page yields an optional text
(`page.extract_text()`), and only truthy (non-empty) texts are appended,
each followed by a newline. -/
def pdfText (pages : List (Option String)) : String :=
  pages.foldl (fun acc p =>
    match p with
    | some t => if t.isEmpty then acc else acc ++ t ++ "\n"
    | none => acc) ""

/-- The text accumulated from DOCX paragraphs (all appended). -/
def docxText (paragraphs : List String) : String :=
  paragraphs.foldl (fun acc p => acc ++ p ++ "\n") ""

/-- `_extract_from_pdf`: when the accumulated text is whitespace-only, an
empty-content ValueError is raised — inside the method's own try block,
whose handler falls back to the regex extractor over the accumulated text;
the error therefore never reaches the caller.  Otherwise the AI path runs
(itself falling back to regex, never raising). -/
def extractFromPdf (pages : List (Option String)) (ai : AIResult) (todayStr : String) :
    Except String (List CustomerRecord) :=
  let textContent := pdfText pages
  if (pyStrip textContent).data.isEmpty then
    .ok (extractFromTextWithRegex textContent todayStr)
  else
    .ok (extractWithAI ai textContent todayStr)

/-- `_extract_from_docx`: same structure over paragraph texts. -/
def extractFromDocx (paragraphs : List String) (ai : AIResult) (todayStr : String) :
    Except String (List CustomerRecord) :=
  let textContent := docxText paragraphs
  if (pyStrip textContent).data.isEmpty then
    .ok (extractFromTextWithRegex textContent todayStr)
  else
    .ok (extractWithAI ai textContent todayStr)

/-! ### Concrete inputs used by counterexamples and witnesses -/

/-- A mapping carrying the four logical fields, the name under the
differently-cased key `Customer_Name`. -/
def dataCaseKey : RawRecord :=
  [("Customer_Name", .str "John Doe"), ("email", .str "john@example.com"),
   ("subscription_tier", .str "Pro"), ("signup_date", .str "2024-01-15")]

/-- A mapping missing both `customer_name` and `subscription_tier`. -/
def dataTwoMissing : RawRecord :=
  [("email", .str "john@example.com"), ("signup_date", .str "2024-01-15")]

/-- A 256-character name. -/
def longName : String := ⟨List.replicate 256 'a'⟩

/-- Cycle responses where the individual POST returns HTTP 500 but the
aggregate POST returns HTTP 200. -/
def c1Responses : CycleResponses :=
  ⟨fun _ => .status 500 "Internal Server Error", .status 200 "ok"⟩

/-- A destination answering HTTP 500 to every POST of every attempt. -/
def alwaysFail500 : Nat → CycleResponses :=
  fun _ => ⟨fun _ => .status 500 "Internal Server Error", .status 500 "Internal Server Error"⟩

/-- Cycle responses where every individual POST succeeds. -/
def c1AllOk : CycleResponses := ⟨fun _ => .status 202 "accepted", .exn "never sent"⟩

/-- Cycle responses where the first individual POST succeeds, later ones
return HTTP 500, and the aggregate POST returns HTTP 201. -/
def c1MultiResponses : CycleResponses :=
  ⟨fun i => if i = 0 then .status 200 "ok" else .status 500 "boom", .status 201 "created"⟩

/-- Attempts that always return a failing pair (never raise). -/
def failingAttempts : Nat → AttemptOutcome :=
  fun _ => .ret false (some "HTTP 500: Internal Server Error")

/-- A fully valid JSON record object. -/
def jsonValidRecord : JsonDoc :=
  .dict [("customer_name", .scalar (.str "John Doe")),
         ("email", .scalar (.str "john@example.com")),
         ("subscription_tier", .scalar (.str "Pro")),
         ("signup_date", .scalar (.str "2024-01-15"))]

/-- A JSON record object missing the `email` key. -/
def jsonMissingEmail : JsonDoc :=
  .dict [("customer_name", .scalar (.str "Jane Smith")),
         ("subscription_tier", .scalar (.str "Basic")),
         ("signup_date", .scalar (.str "2024-01-20"))]

/-- `{"data": [valid record, record missing email]}`. -/
def c5JsonDoc : JsonDoc := .dict [("data", .list [jsonValidRecord, jsonMissingEmail])]

/-- The same two records as table rows under canonical headers; the missing
email is a NaN cell. -/
def c5Frame : DataFrame :=
  ⟨["customer_name", "email", "subscription_tier", "signup_date"],
   [[.str "John Doe", .str "john@example.com", .str "Pro", .str "2024-01-15"],
    [.str "Jane Smith", .other, .str "Basic", .str "2024-01-20"]]⟩

/-- A two-email text for the fallback extractor. -/
def c9Text : String :=
  "Alice Johnson alice@example.com signed up\nContact: bob.smith@company.org soon"

/-- The record the fallback extractor builds for the first email of
`c9Text`. -/
def c9Rec : CustomerRecord :=
  { customer_name := "Alice Johnson", email := "alice@example.com",
    subscription_tier := .basic, signup_date := ⟨2024, 3, 1⟩ }

/-! ### Claim theorems: the Validator -/

/-- C8: tier normalization never fails (it is a total function into the
enum) and is idempotent: an enum value passes through unchanged, a canonical
tier string maps to its own member, an unrecognized string and any
non-string, non-tier value yield Basic rather than an error. -/
theorem C8_tier_normalization_total_idempotent :
    (∀ t : SubscriptionTier, normalize_subscription_tier (.tier t) = t) ∧
    (∀ t : SubscriptionTier, normalize_subscription_tier (.str t.pyStr) = t) ∧
    (∀ v : Value,
      normalize_subscription_tier (.tier (normalize_subscription_tier v)) =
        normalize_subscription_tier v) ∧
    (∀ s : String, tierMapping.lookup (pyLower (pyStrip s)) = none →
      normalize_subscription_tier (.str s) = .basic) ∧
    normalize_subscription_tier .other = .basic ∧
    (∀ d : Date, normalize_subscription_tier (.date d) = .basic) := by
  refine ⟨fun t => rfl, fun t => by cases t <;> rfl, fun v => rfl, ?_, rfl, fun d => rfl⟩
  intro s h
  simp [normalize_subscription_tier, h]

/-- Witness for C8 at concrete inputs: "gold" is not in the synonym table and
normalizes to Basic; the Pro member passes through unchanged. -/
theorem C8_witness :
    tierMapping.lookup (pyLower (pyStrip "gold")) = none ∧
    normalize_subscription_tier (.str "gold") = .basic ∧
    normalize_subscription_tier (.tier .pro) = .pro :=
  ⟨by decide, C8_tier_normalization_total_idempotent.2.2.2.1 "gold" (by decide),
    C8_tier_normalization_total_idempotent.1 .pro⟩

/-- C6: a string date is trimmed and the thirteen formats are attempted in
the specified order with the first success taken (so `01/02/2024` parses as
month/day/year); on total failure, ordinal suffixes are stripped by the
regex and the full list is retried once; on a second failure the value is
rejected with a message carrying the (trimmed) input value. -/
theorem C6_date_parsing :
    (∀ s : String, ∀ d : Date, tryFormats (pyStrip s).data = some d →
      parse_signup_date (.str s) = .ok d) ∧
    (∀ s : String, ∀ d : Date, tryFormats (pyStrip s).data = none →
      tryFormats (stripOrdinals (pyStrip s).data) = some d →
      parse_signup_date (.str s) = .ok d) ∧
    (∀ s : String, tryFormats (pyStrip s).data = none →
      tryFormats (stripOrdinals (pyStrip s).data) = none →
      parse_signup_date (.str s) = .error ("Unable to parse date: " ++ pyStrip s)) ∧
    (∀ cs : List Char, tryFormats cs =
      ([ [.y4, .lit '-', .mon2, .lit '-', .day2],
         [.mon2, .lit '/', .day2, .lit '/', .y4],
         [.day2, .lit '/', .mon2, .lit '/', .y4],
         [.monFull, .ws, .day2, .lit ',', .ws, .y4],
         [.monAbbr, .ws, .day2, .lit ',', .ws, .y4],
         [.day2, .ws, .monAbbr, .ws, .y4],
         [.day2, .ws, .monAbbr, .ws, .y2],
         [.monAbbr, .ws, .day2, .ws, .y2],
         [.y4, .lit '/', .mon2, .lit '/', .day2],
         [.day2, .lit '-', .mon2, .lit '-', .y4],
         [.mon2, .lit '-', .day2, .lit '-', .y4],
         [.y4, .lit '.', .mon2, .lit '.', .day2],
         [.day2, .lit '.', .mon2, .lit '.', .y4] ] : List (List FTok)).findSome?
        (fun f => tryFormat f cs)) ∧
    parse_signup_date (.str "01/02/2024") = .ok ⟨2024, 1, 2⟩ ∧
    parse_signup_date (.str "13/02/2024") = .ok ⟨2024, 2, 13⟩ ∧
    parse_signup_date (.str "January 1st, 2024") = .ok ⟨2024, 1, 1⟩ ∧
    parse_signup_date (.str "notadate") = .error "Unable to parse date: notadate" := by
  refine ⟨?_, ?_, ?_, fun cs => rfl, rfl, rfl, rfl, rfl⟩
  · intro s d h
    simp [parse_signup_date, parseDateStr, h]
  · intro s d h1 h2
    simp [parse_signup_date, parseDateStr, h1, h2]
  · intro s h1 h2
    simp [parse_signup_date, parseDateStr, h1, h2]

/-- Witness for C6 at concrete inputs: a first-pass success, an
ordinal-retry success, and a rejection. -/
theorem C6_witness :
    tryFormats (pyStrip "01/02/2024").data = some ⟨2024, 1, 2⟩ ∧
    parse_signup_date (.str "01/02/2024") = .ok ⟨2024, 1, 2⟩ ∧
    tryFormats (pyStrip "January 1st, 2024").data = none ∧
    tryFormats (stripOrdinals (pyStrip "January 1st, 2024").data) = some ⟨2024, 1, 1⟩ ∧
    parse_signup_date (.str "January 1st, 2024") = .ok ⟨2024, 1, 1⟩ ∧
    parse_signup_date (.str "notadate") = .error "Unable to parse date: notadate" :=
  ⟨by decide, C6_date_parsing.1 "01/02/2024" ⟨2024, 1, 2⟩ (by decide),
    by decide, by decide,
    C6_date_parsing.2.1 "January 1st, 2024" ⟨2024, 1, 1⟩ (by decide) (by decide),
    C6_date_parsing.2.2.1 "notadate" (by decide) (by decide)⟩

/-- C4 counterexample: the required-field check is case-SENSITIVE.  A mapping
whose name field is spelled `Customer_Name` (every field value valid) is
rejected as missing `customer_name`, while the claim's case-insensitive
recognition would accept it. -/
theorem C4_counterexample :
    validate_model dataCaseKey = .error "Missing required fields: [\x27customer_name\x27]" ∧
    CustomerRecord.mk? dataCaseKey =
      .error ["Missing required fields: [\x27customer_name\x27]"] := ⟨rfl, rfl⟩

/-- C4 amended: the required-field check runs before any per-field
validation (its message is the sole error of the rejection, whatever the
field values), recognizes the four logical keys by case-sensitive exact
match against the canonical key name, and lists every absent field. -/
theorem C4_required_fields_first (data : RawRecord) (h : missingFields data ≠ []) :
    CustomerRecord.mk? data =
      .error ["Missing required fields: " ++ pyListRepr (missingFields data)] := by
  have he : (missingFields data).isEmpty = false := by
    cases hm : missingFields data
    · exact absurd hm h
    · rfl
  simp [CustomerRecord.mk?, validate_model, he]

/-- Witness for the amended C4: both absent fields are listed, in
required-field order. -/
theorem C4_witness :
    missingFields dataTwoMissing ≠ [] ∧
    CustomerRecord.mk? dataTwoMissing =
      .error ["Missing required fields: [\x27customer_name\x27, \x27subscription_tier\x27]"] :=
  ⟨by decide, by rw [C4_required_fields_first dataTwoMissing (by decide)]; rfl⟩

/-- C10: the Validator enforces an (undocumented) 255-character upper bound
on the raw customer name: any string name longer than 255 characters is
rejected even when every other field is valid. -/
theorem C10_name_length_bound (s : String) (h : 255 < s.length) :
    validateNameField (.str s) = .error "String should have at most 255 characters" ∧
    CustomerRecord.mk?
      [("customer_name", .str s), ("email", .str "john@example.com"),
       ("subscription_tier", .str "Pro"), ("signup_date", .str "2024-01-15")] =
      .error ["String should have at most 255 characters"] := by
  have h0 : ¬ s.length < 1 := by omega
  have h1 : validateNameField (.str s) = .error "String should have at most 255 characters" := by
    simp [validateNameField, Value.asPyStr?, h0, h]
  refine ⟨h1, ?_⟩
  show combineFields (validateNameField (.str s)) (validateEmailField (.str "john@example.com"))
      (.ok (normalize_subscription_tier (.str "Pro")))
      (parse_signup_date (.str "2024-01-15")) = _
  rw [h1]
  rfl

/-- Witness for C10 at a concrete 256-character name. -/
theorem C10_witness :
    255 < longName.length ∧
    CustomerRecord.mk?
      [("customer_name", .str longName), ("email", .str "john@example.com"),
       ("subscription_tier", .str "Pro"), ("signup_date", .str "2024-01-15")] =
      .error ["String should have at most 255 characters"] :=
  ⟨by decide, (C10_name_length_bound longName (by decide)).2⟩

/-! ### Claim theorems: the Delivery Client -/

theorem sendLoop_all_ok (dest : Nat → HttpResult) (l : List String) :
    ∀ idx, (∀ i, i < l.length → (sendSingleRecord (dest (idx + i))).1 = true) →
      sendLoop dest idx l = (true, l.length) := by
  induction l with
  | nil => intro idx _; rfl
  | cons a rest ih =>
    intro idx h
    have h0 : (sendSingleRecord (dest idx)).1 = true := by
      simpa using h 0 (by simp)
    rcases hs : sendSingleRecord (dest idx) with ⟨b, e⟩
    rw [hs] at h0; subst h0
    have h2 : ∀ i, i < rest.length → (sendSingleRecord (dest (idx + 1 + i))).1 = true := by
      intro i hi
      have := h (i + 1) (by simp; omega)
      rwa [show idx + (i + 1) = idx + 1 + i by omega] at this
    simp [sendLoop, hs, ih (idx + 1) h2]

theorem sendLoop_first_fail (dest : Nat → HttpResult) (l : List String) :
    ∀ idx j, j < l.length → (sendSingleRecord (dest (idx + j))).1 = false →
      (∀ i, i < j → (sendSingleRecord (dest (idx + i))).1 = true) →
      sendLoop dest idx l = (false, j + 1) := by
  induction l with
  | nil => intro idx j hj; simp at hj
  | cons a rest ih =>
    intro idx j hj hfail hok
    cases j with
    | zero =>
      have h0 : (sendSingleRecord (dest idx)).1 = false := by simpa using hfail
      rcases hs : sendSingleRecord (dest idx) with ⟨b, e⟩
      rw [hs] at h0; subst h0
      simp [sendLoop, hs]
    | succ j2 =>
      have h0 : (sendSingleRecord (dest idx)).1 = true := by
        simpa using hok 0 (Nat.succ_pos _)
      rcases hs : sendSingleRecord (dest idx) with ⟨b, e⟩
      rw [hs] at h0; subst h0
      have hfail2 : (sendSingleRecord (dest (idx + 1 + j2))).1 = false := by
        rwa [show idx + 1 + j2 = idx + (j2 + 1) by omega]
      have hok2 : ∀ i, i < j2 → (sendSingleRecord (dest (idx + 1 + i))).1 = true := by
        intro i hi
        have := hok (i + 1) (by omega)
        rwa [show idx + (i + 1) = idx + 1 + i by omega] at this
      have := ih (idx + 1) j2 (by simpa using Nat.lt_of_succ_lt_succ hj) hfail2 hok2
      simp [sendLoop, hs, this]

/-- C1 counterexample: for a single-record batch whose individual POST
returns HTTP 500 and whose aggregate POST returns HTTP 200, the cycle makes
one aggregate POST and SUCCEEDS — the claim predicted a failed cycle with no
aggregate POST. -/
theorem C1_counterexample :
    sendData ["r1"] c1Responses =
      { success := true, error := none, individualPosts := 1, aggregatePosts := 1 } := by
  decide

/-- C1 amended: a single-record cycle POSTs its individual payload; on
200/201/202 the cycle succeeds with no aggregate POST, on any other result
one aggregate POST is made and its status decides the cycle (the same
fallback as the multi-record case).  A multi-record cycle POSTs individual
payloads in sequence; if all succeed the cycle succeeds with no aggregate
POST; at the first individual failure the remaining individual POSTs are
abandoned and exactly one aggregate POST decides the cycle. -/
theorem C1_send_cycle (batch : List String) (resp : CycleResponses) :
    (batch.length = 1 →
      ((sendSingleRecord (resp.individual 0)).1 = true →
          sendData batch resp =
            { success := true, error := none, individualPosts := 1, aggregatePosts := 0 }) ∧
      ((sendSingleRecord (resp.individual 0)).1 = false →
          sendData batch resp =
            { success := (sendBatch resp.aggregate).1, error := (sendBatch resp.aggregate).2,
              individualPosts := 1, aggregatePosts := 1 })) ∧
    (1 < batch.length →
      ((∀ i, i < batch.length → (sendSingleRecord (resp.individual i)).1 = true) →
          sendData batch resp =
            { success := true, error := none, individualPosts := batch.length,
              aggregatePosts := 0 }) ∧
      (∀ j, j < batch.length → (sendSingleRecord (resp.individual j)).1 = false →
          (∀ i, i < j → (sendSingleRecord (resp.individual i)).1 = true) →
          sendData batch resp =
            { success := (sendBatch resp.aggregate).1, error := (sendBatch resp.aggregate).2,
              individualPosts := j + 1, aggregatePosts := 1 })) := by
  constructor
  · intro hlen
    constructor
    · intro hok
      rcases hs : sendSingleRecord (resp.individual 0) with ⟨b, e⟩
      rw [hs] at hok; subst hok
      simp [sendData, hlen, hs]
    · intro hfail
      rcases hs : sendSingleRecord (resp.individual 0) with ⟨b, e⟩
      rw [hs] at hfail; subst hfail
      simp [sendData, hlen, hs]
  · intro hlen
    have hne : ¬ batch.length = 1 := by omega
    constructor
    · intro hok
      have := sendLoop_all_ok resp.individual batch 0 (by simpa using hok)
      simp [sendData, hne, this]
    · intro j hj hfail hok
      have := sendLoop_first_fail resp.individual batch 0 j (by simpa using hj)
        (by simpa using hfail) (by simpa using hok)
      simp [sendData, hne, this]

/-- Witness for the amended C1: the three paths at concrete inputs — a
failing single-record cycle decided by a succeeding aggregate POST, an
all-successful two-record cycle with no aggregate POST, and a three-record
cycle failing at the second record with the third abandoned and the
aggregate POST deciding. -/
theorem C1_witness :
    (sendSingleRecord (c1Responses.individual 0)).1 = false ∧
    sendData ["r1"] c1Responses =
      { success := true, error := none, individualPosts := 1, aggregatePosts := 1 } ∧
    sendData ["a", "b"] c1AllOk =
      { success := true, error := none, individualPosts := 2, aggregatePosts := 0 } ∧
    (sendSingleRecord (c1MultiResponses.individual 1)).1 = false ∧
    sendData ["a", "b", "c"] c1MultiResponses =
      { success := true, error := none, individualPosts := 2, aggregatePosts := 1 } :=
  ⟨rfl,
    (((C1_send_cycle ["r1"] c1Responses).1 rfl).2 rfl).trans (by decide),
    (((C1_send_cycle ["a", "b"] c1AllOk).2 (by decide)).1 (by decide)).trans (by decide),
    rfl,
    (((C1_send_cycle ["a", "b", "c"] c1MultiResponses).2 (by decide)).2 1 (by decide)
      (by decide) (by decide)).trans (by decide)⟩

theorem retryLoop_all_fail (attempts : Nat → AttemptOutcome) (d : ℚ) (m : Nat) :
    ∀ rem k le sl, (∀ j, j < k + rem → (attempts j).failed = true) →
      retryLoop attempts d m k rem le sl =
        { success := false,
          error := some ("Failed to sync data after " ++ toString (m + 1) ++
            " attempts. Last error: " ++ pyOptionStr (lastErrAfter attempts k rem le)),
          sleeps := sl ++ backoffSleeps d k rem,
          attemptsMade := k + rem } := by
  intro rem
  induction rem with
  | zero => intro k le sl _; simp [retryLoop, backoffSleeps, lastErrAfter]
  | succ rem2 ih =>
    intro k le sl h
    have hk : (attempts k).failed = true := h k (by omega)
    have hshift : ∀ j, j < (k + 1) + rem2 → (attempts j).failed = true := by
      intro j hj; exact h j (by omega)
    cases ha : attempts k with
    | ret b e =>
        cases b with
        | true => rw [ha] at hk; simp [AttemptOutcome.failed] at hk
        | false =>
            rw [show retryLoop attempts d m k (rem2 + 1) le sl =
                retryLoop attempts d m (k + 1) rem2 le
                  (if 0 < k then sl ++ [d * 2 ^ (k - 1)] else sl) by
              simp only [retryLoop, ha]]
            rw [ih (k + 1) le _ hshift]
            rw [show lastErrAfter attempts k (rem2 + 1) le =
                lastErrAfter attempts (k + 1) rem2 le by simp [lastErrAfter, ha]]
            rw [show sl ++ backoffSleeps d k (rem2 + 1) =
                (if 0 < k then sl ++ [d * 2 ^ (k - 1)] else sl) ++
                  backoffSleeps d (k + 1) rem2 by
              rw [show backoffSleeps d k (rem2 + 1) =
                  (if 0 < k then [d * 2 ^ (k - 1)] else []) ++ backoffSleeps d (k + 1) rem2
                  from rfl]
              split <;> simp]
            rw [show k + (rem2 + 1) = k + 1 + rem2 by omega]
    | raised msg =>
        rw [show retryLoop attempts d m k (rem2 + 1) le sl =
            retryLoop attempts d m (k + 1) rem2 (some msg)
              (if 0 < k then sl ++ [d * 2 ^ (k - 1)] else sl) by
          simp only [retryLoop, ha]]
        rw [ih (k + 1) (some msg) _ hshift]
        rw [show lastErrAfter attempts k (rem2 + 1) le =
            lastErrAfter attempts (k + 1) rem2 (some msg) by simp [lastErrAfter, ha]]
        rw [show sl ++ backoffSleeps d k (rem2 + 1) =
            (if 0 < k then sl ++ [d * 2 ^ (k - 1)] else sl) ++
              backoffSleeps d (k + 1) rem2 by
          rw [show backoffSleeps d k (rem2 + 1) =
              (if 0 < k then [d * 2 ^ (k - 1)] else []) ++ backoffSleeps d (k + 1) rem2
              from rfl]
          split <;> simp]
        rw [show k + (rem2 + 1) = k + 1 + rem2 by omega]

theorem backoffSleeps_shift (d : ℚ) :
    ∀ rem k, backoffSleeps d (k + 1) rem = (List.range rem).map (fun j => d * 2 ^ (k + j)) := by
  intro rem
  induction rem with
  | zero => intro k; rfl
  | succ rem2 ih =>
    intro k
    rw [show backoffSleeps d (k + 1) (rem2 + 1) =
        [d * 2 ^ k] ++ backoffSleeps d (k + 2) rem2 by simp [backoffSleeps]]
    rw [ih (k + 1), List.range_succ_eq_map]
    simp only [List.map_cons, List.map_map, Function.comp, Nat.add_zero, List.cons_append,
      List.nil_append]
    congr 1
    apply List.map_congr_left
    intro a _
    simp only [Function.comp, Nat.succ_eq_add_one]
    ring

/-- C7: against a destination on which every attempt fails, the retry loop
performs exactly `max_retries + 1` attempts, sleeping
`retry_delay * 2 ^ (k - 1)` before retry `k` for each `k > 0` (so the sleep
list is `[d, 2d, 4d, ...]` of length `max_retries`), and returns a failure
whose message reports `max_retries + 1` attempts. -/
theorem C7_retry_schedule (attempts : Nat → AttemptOutcome) (d : ℚ) (m : Nat)
    (h : ∀ j, j ≤ m → (attempts j).failed = true) :
    sendWithRetry attempts d m =
      { success := false,
        error := some ("Failed to sync data after " ++ toString (m + 1) ++
          " attempts. Last error: " ++ pyOptionStr (lastErrAfter attempts 0 (m + 1) none)),
        sleeps := (List.range m).map (fun j => d * 2 ^ j),
        attemptsMade := m + 1 } := by
  rw [sendWithRetry,
    retryLoop_all_fail attempts d m (m + 1) 0 none [] (fun j hj => h j (by omega))]
  rw [List.nil_append]
  rw [show backoffSleeps d 0 (m + 1) = (List.range m).map (fun j => d * 2 ^ j) by
    rw [show backoffSleeps d 0 (m + 1) = backoffSleeps d 1 m by simp [backoffSleeps]]
    simpa using backoffSleeps_shift d m 0]
  rw [show 0 + (m + 1) = m + 1 by omega]

/-- Witness for C7 with `max_retries = 3` and `retry_delay = 1`: exactly 4
attempts, sleeps 1, 2, 4, and a message reporting "4 attempts". -/
theorem C7_witness :
    (∀ j, j ≤ 3 → (failingAttempts j).failed = true) ∧
    sendWithRetry failingAttempts 1 3 =
      { success := false,
        error := some "Failed to sync data after 4 attempts. Last error: None",
        sleeps := [1 * 2 ^ 0, 1 * 2 ^ 1, 1 * 2 ^ 2], attemptsMade := 4 } ∧
    ([1 * 2 ^ 0, 1 * 2 ^ 1, 1 * 2 ^ 2] : List ℚ) = [1, 2, 4] ∧
    listContainsSub "Failed to sync data after 4 attempts. Last error: None".data
      "4 attempts".data = true :=
  ⟨fun j _ => rfl,
    (C7_retry_schedule failingAttempts 1 3 (fun j _ => rfl)).trans (by rfl),
    by norm_num,
    by decide⟩

/-- C2 (code bug): a non-empty batch on a destination failing every cycle
returns a failure whose message interpolates `last_error`, but `last_error`
is only assigned when an attempt RAISES; `_send_data` returns its failures
(its reason is bound to an unused variable and discarded), so the final
message says "Last error: None" and does not contain the last cycle's
underlying reason "HTTP 500: Internal Server Error" — even though that final
cycle did produce exactly that reason (third conjunct), and the repository's
own test asserts the reason appears in the returned error. -/
theorem C2_last_error_discarded :
    syncCustomerData ["r1", "r2"] alwaysFail500 1 3 =
      { success := false,
        error := some "Failed to sync data after 4 attempts. Last error: None",
        sleeps := [1 * 2 ^ 0, 1 * 2 ^ 1, 1 * 2 ^ 2], attemptsMade := 4 } ∧
    listContainsSub "Failed to sync data after 4 attempts. Last error: None".data
      "HTTP 500: Internal Server Error".data = false ∧
    (sendData ["r1", "r2"] (alwaysFail500 3)).error =
      some "HTTP 500: Internal Server Error" := by
  refine ⟨by rfl, by decide, by decide⟩

/-! ### Claim theorems: extraction strategies -/

/-- C5: structured-object ingest is strict while tabular ingest is
permissive.  Concretely, `{"data": [valid, record-missing-email]}` fails the
whole JSON call while the same two records as table rows yield exactly the
valid record; in general the JSON element loop succeeds iff every element
validates, while the dataframe loop never aborts once the name and email
columns resolve. -/
theorem C5_strict_vs_permissive :
    extractFromJson c5JsonDoc = .error "Missing required fields: [\x27email\x27]" ∧
    dataframeToRecords c5Frame "2024-03-01" =
      .ok [{ customer_name := "John Doe", email := "john@example.com",
             subscription_tier := .pro, signup_date := ⟨2024, 1, 15⟩ }] ∧
    (∀ xs : List JsonDoc, exceptOk (buildAll xs) =
      xs.all (fun x => exceptOk (elementRecord x))) ∧
    (∀ df todayStr,
      (resolveColumn df.headers (synonymsFor "customer_name")).isSome = true →
      (resolveColumn df.headers (synonymsFor "email")).isSome = true →
      exceptOk (dataframeToRecords df todayStr) = true) := by
  refine ⟨by rfl, by rfl, ?_, ?_⟩
  · intro xs
    induction xs with
    | nil => rfl
    | cons x xs ih =>
      simp only [buildAll, List.all_cons]
      cases hx : elementRecord x with
      | error e => simp [exceptOk, hx]
      | ok c =>
        cases hb : buildAll xs with
        | error e2 => rw [← ih]; simp [exceptOk, hx, hb]
        | ok cs => rw [← ih]; simp [exceptOk, hx, hb]
  · intro df t h1 h2
    obtain ⟨a, ha⟩ := Option.isSome_iff_exists.mp h1
    obtain ⟨b, hb⟩ := Option.isSome_iff_exists.mp h2
    simp only [dataframeToRecords, ha, hb]
    simp [exceptOk]

/-- Witness for C5: the pre-flight hypotheses hold on the concrete table and
its permissive processing succeeds. -/
theorem C5_witness :
    (resolveColumn c5Frame.headers (synonymsFor "customer_name")).isSome = true ∧
    (resolveColumn c5Frame.headers (synonymsFor "email")).isSome = true ∧
    exceptOk (dataframeToRecords c5Frame "2024-03-01") = true :=
  ⟨by decide, by decide,
    C5_strict_vs_permissive.2.2.2 c5Frame "2024-03-01" (by decide) (by decide)⟩

theorem combineFields_ok {nr er : Except String String} {tr : Except String SubscriptionTier}
    {dr : Except String Date} {c : CustomerRecord}
    (h : combineFields nr er tr dr = .ok c) :
    nr = .ok c.customer_name ∧ er = .ok c.email ∧ tr = .ok c.subscription_tier ∧
      dr = .ok c.signup_date := by
  cases nr with
  | error e => simp [combineFields] at h
  | ok n =>
    cases er with
    | error e => simp [combineFields] at h
    | ok em =>
      cases tr with
      | error e => simp [combineFields] at h
      | ok t =>
        cases dr with
        | error e => simp [combineFields] at h
        | ok d =>
          have h2 : CustomerRecord.mk n em t d = c := Except.ok.inj h
          subst h2
          exact ⟨rfl, rfl, rfl, rfl⟩

theorem validate_email_ok {v x : String} (h : validate_email v = .ok x) :
    x = pyLower (pyStrip v) := by
  by_cases hE : emailRegexOk (pyLower (pyStrip v)) = true
  · have h2 : validate_email v = .ok (pyLower (pyStrip v)) := by
      simp [validate_email, hE]
    rw [h2] at h
    exact (Except.ok.inj h).symm
  · have h2 : validate_email v = .error ("Invalid email format: " ++ v) := by
      simp [validate_email, hE]
    rw [h2] at h
    exact absurd h (by simp)

theorem buildCandidates_eq (text : List Char) (t : String) (es : List String) :
    buildCandidates text t es =
      es.filterMap (fun e => exceptToOption (CustomerRecord.mk? (candidateRaw text t e))) := by
  induction es with
  | nil => rfl
  | cons e es ih =>
    simp only [buildCandidates, List.filterMap_cons]
    cases h : CustomerRecord.mk? (candidateRaw text t e) <;> simp [exceptToOption, h, ih]

/-- C9: the text fallback extractor yields one candidate per matched email,
in first-occurrence order with duplicates preserved, dropping exactly the
candidates that fail validation (the filterMap characterization); every
returned record has tier Basic; every returned record's date is the current
date (whatever date the today string parses to); and every returned record's
name is the validated heuristic name (title-cased at-most-3-word prefix of
the email's line, else "Unknown") with the lower-cased matched email.  The
extractor is a total function — no exception escapes. -/
theorem C9_text_fallback (text todayStr : String) :
    extractFromTextWithRegex text todayStr =
      (findEmails text.data).filterMap (fun e =>
        exceptToOption (CustomerRecord.mk? (candidateRaw text.data todayStr e))) ∧
    (∀ r, r ∈ extractFromTextWithRegex text todayStr → r.subscription_tier = .basic) ∧
    (∀ d : Date, parseDateStr todayStr = .ok d →
      ∀ r, r ∈ extractFromTextWithRegex text todayStr → r.signup_date = d) ∧
    (∀ r, r ∈ extractFromTextWithRegex text todayStr →
      ∃ e, e ∈ findEmails text.data ∧
        validateNameField (.str (nameForEmail text.data e.data)) = .ok r.customer_name ∧
        r.email = pyLower (pyStrip e)) := by
  have heq : extractFromTextWithRegex text todayStr =
      (findEmails text.data).filterMap (fun e =>
        exceptToOption (CustomerRecord.mk? (candidateRaw text.data todayStr e))) :=
    buildCandidates_eq text.data todayStr (findEmails text.data)
  have hm : ∀ r, r ∈ extractFromTextWithRegex text todayStr →
      ∃ e, e ∈ findEmails text.data ∧
        CustomerRecord.mk? (candidateRaw text.data todayStr e) = .ok r := by
    intro r hr
    rw [heq] at hr
    obtain ⟨e, he, hok⟩ := List.mem_filterMap.mp hr
    refine ⟨e, he, ?_⟩
    cases h2 : CustomerRecord.mk? (candidateRaw text.data todayStr e) <;>
      rw [h2] at hok <;> simp [exceptToOption] at hok
    rw [hok]
  refine ⟨heq, ?_, ?_, ?_⟩
  · intro r hr
    obtain ⟨e, _, hok⟩ := hm r hr
    have hok2 : combineFields
        (validateNameField (.str (nameForEmail text.data e.data)))
        (validateEmailField (.str e))
        (.ok (normalize_subscription_tier (.str "Basic")))
        (parse_signup_date (.str todayStr)) = .ok r := hok
    obtain ⟨_, _, ht, _⟩ := combineFields_ok hok2
    have h3 := (Except.ok.inj ht).symm
    rw [h3]
    rfl
  · intro d hdate r hr
    obtain ⟨e, _, hok⟩ := hm r hr
    have hok2 : combineFields
        (validateNameField (.str (nameForEmail text.data e.data)))
        (validateEmailField (.str e))
        (.ok (normalize_subscription_tier (.str "Basic")))
        (parse_signup_date (.str todayStr)) = .ok r := hok
    obtain ⟨_, _, _, hd⟩ := combineFields_ok hok2
    have hd2 : parseDateStr todayStr = .ok r.signup_date := hd
    rw [hdate] at hd2
    exact (Except.ok.inj hd2).symm
  · intro r hr
    obtain ⟨e, he, hok⟩ := hm r hr
    have hok2 : combineFields
        (validateNameField (.str (nameForEmail text.data e.data)))
        (validateEmailField (.str e))
        (.ok (normalize_subscription_tier (.str "Basic")))
        (parse_signup_date (.str todayStr)) = .ok r := hok
    obtain ⟨hn, he2, _, _⟩ := combineFields_ok hok2
    have he3 : validate_email e = .ok r.email := he2
    exact ⟨e, he, hn, validate_email_ok he3⟩

/-- Witness for C9 on a concrete two-email text: the first returned record,
with tier and date obtained through the theorem. -/
theorem C9_witness :
    parseDateStr "2024-03-01" = .ok ⟨2024, 3, 1⟩ ∧
    c9Rec ∈ extractFromTextWithRegex c9Text "2024-03-01" ∧
    c9Rec.subscription_tier = .basic ∧
    c9Rec.signup_date = ⟨2024, 3, 1⟩ :=
  ⟨by rfl, by decide,
    (C9_text_fallback c9Text "2024-03-01").2.1 c9Rec (by decide),
    (C9_text_fallback c9Text "2024-03-01").2.2.1 ⟨2024, 3, 1⟩ (by rfl) c9Rec (by decide)⟩

theorem strip_empty_all_ws (cs : List Char) (h : pyStripList cs = []) :
    ∀ c ∈ cs, isPyWs c = true := by
  intro c hc
  unfold pyStripList at h
  have h1 : (cs.dropWhile isPyWs).reverse.dropWhile isPyWs = [] := by
    rwa [List.reverse_eq_nil_iff] at h
  have h2 : ∀ x ∈ cs.dropWhile isPyWs, isPyWs x = true := by
    intro x hx
    exact List.dropWhile_eq_nil_iff.mp h1 x (List.mem_reverse.mpr hx)
  rcases List.mem_append.mp
      (by rw [List.takeWhile_append_dropWhile]; exact hc :
        c ∈ cs.takeWhile isPyWs ++ cs.dropWhile isPyWs) with hl | hr
  · exact List.mem_takeWhile_imp hl
  · exact h2 c hr

theorem ws_not_local (c : Char) (h : isPyWs c = true) : isLocalChar c = false := by
  unfold isPyWs at h
  simp only [Bool.or_eq_true, decide_eq_true_eq] at h
  rcases h with ((((h | h) | h) | h) | h) | h <;> subst h <;> decide

theorem findEmailsAux_ws (fuel : Nat) (cs : List Char) (h : ∀ c ∈ cs, isPyWs c = true) :
    findEmailsAux fuel cs = [] := by
  induction fuel generalizing cs with
  | zero => cases cs <;> rfl
  | succ fuel ih =>
    cases cs with
    | nil => rfl
    | cons c rest =>
      have hc : isPyWs c = true := h c (List.mem_cons_self c rest)
      have hloc : isLocalChar c = false := ws_not_local c hc
      have hnone : tryEmailAt (c :: rest) = none := by
        unfold tryEmailAt
        simp [List.takeWhile_cons, hloc]
      simp only [findEmailsAux, hnone]
      exact ih rest (fun x hx => h x (List.mem_cons_of_mem c hx))

theorem regexExtract_ws (s t : String) (h : (pyStrip s).data.isEmpty = true) :
    extractFromTextWithRegex s t = [] := by
  have hnil : pyStripList s.data = [] := List.isEmpty_iff.mp h
  have hws := strip_empty_all_ws s.data hnil
  rw [extractFromTextWithRegex, findEmails, findEmailsAux_ws _ _ hws]
  rfl

/-- C3 counterexample: a PDF with no extractable page text and a DOCX with
no paragraphs return an empty record list to the caller instead of failing
with an empty-content error. -/
theorem C3_counterexample :
    extractFromPdf [] .absent "2024-03-01" = .ok [] ∧
    extractFromDocx [] .absent "2024-03-01" = .ok [] := ⟨rfl, rfl⟩

/-- C3 amended: for every unstructured input (PDF or DOCX) whose extracted
text is empty or whitespace-only, the empty-content error is raised inside
the extractor's own try block and caught by its fallback handler, which runs
the regex extractor over the (whitespace-only) text — so the caller receives
an empty record list, never an EmptyContent error. -/
theorem C3_empty_content_fallback :
    (∀ pages ai t, (pyStrip (pdfText pages)).data.isEmpty = true →
      extractFromPdf pages ai t = .ok []) ∧
    (∀ paras ai t, (pyStrip (docxText paras)).data.isEmpty = true →
      extractFromDocx paras ai t = .ok []) := by
  constructor
  · intro pages ai t h
    simp only [extractFromPdf, h, if_pos]
    rw [regexExtract_ws _ _ h]
  · intro paras ai t h
    simp only [extractFromDocx, h, if_pos]
    rw [regexExtract_ws _ _ h]

/-- Witness for the amended C3: whitespace-only page texts and paragraphs,
with an AI capability configured (it is never consulted). -/
theorem C3_witness :
    (pyStrip (pdfText [some " ", none, some "\t"])).data.isEmpty = true ∧
    extractFromPdf [some " ", none, some "\t"] (.fail "boom") "2024-03-01" = .ok [] ∧
    (pyStrip (docxText ["", "  "])).data.isEmpty = true ∧
    extractFromDocx ["", "  "] .absent "2024-03-01" = .ok [] :=
  ⟨by decide, C3_empty_content_fallback.1 [some " ", none, some "\t"] (.fail "boom")
      "2024-03-01" (by decide),
    by decide, C3_empty_content_fallback.2 ["", "  "] .absent "2024-03-01" (by decide)⟩

end PocketCM
